import Mathlib

/-!
Shallow embedding of the `thc` package (Timed HTTP Client), a thin wrapper
around Go's http.Client adding per-phase latency metrics and a
consecutive-failure circuit breaker. The breaker and registry logic live in
src/thc.go (the `THC` struct, `Do`, `PublishExpvar`), the request-lifecycle
tracer in src/metrics.go (`withTracing`).

The embedding models one THC instance sequentially: the mutable fields of
the struct together with the observable side effects of the request path
form a `State`, one `Do` call is a function from state and transport
outcome to state and result, and the cooldown goroutine's body is a
separate state transition. Machine integers: `errorCounter` and `MaxErrors`
are Go `int32`; increments go through explicit two's-complement wraparound.
-/

namespace THC

/-- HTTP response as the breaker sees it: only `StatusCode` is read. -/
structure Response where
  statusCode : Int
deriving Repr, DecidableEq

/-- Error values a `Do` call can hand back to the caller: the distinguished
sentinel declared at src/thc.go line 34, or an error produced by the
underlying transport, identified abstractly by a number. -/
inductive GoError where
  | outOfService : GoError
  | transport : Nat → GoError
deriving Repr, DecidableEq

/-- The sentinel `ErrOutOfService` (src/thc.go line 34). -/
def ErrOutOfService : GoError := GoError.outOfService

/-- Outcome of one call to the underlying transport `c.Client.Do(req)`
(src/thc.go line 77): either a non-nil error with a nil response, or a
response with a nil error, following Go's http.Client contract. -/
inductive TransportOutcome where
  | err : Nat → TransportOutcome
  | ok : Response → TransportOutcome
deriving Repr, DecidableEq

/-- The response value the transport returned (nil when it errored). -/
def TransportOutcome.res : TransportOutcome → Option Response
  | .err _ => none
  | .ok r => some r

/-- The error value the transport returned (nil on success). -/
def TransportOutcome.errVal : TransportOutcome → Option Nat
  | .err e => some e
  | .ok _ => none

/-- Breaker failure classification, the condition at src/thc.go line 80:
`err != nil || res.StatusCode >= 500`. -/
def isFailure : TransportOutcome → Bool
  | .err _ => true
  | .ok r => decide (500 ≤ r.statusCode)

/-- The same condition `err != nil || res.StatusCode >= 500` evaluated over
a raw (error, response) pair with Go's short-circuit `||`: when the error
is non-nil the status field is never read, so the result is `some true`
even for a nil response; `none` marks the nil-pointer dereference that
would occur if the status of an absent response had to be read. -/
def classifyRaw (e : Option Nat) (res : Option Response) : Option Bool :=
  if e.isSome then some true
  else
    match res with
    | some r => some (decide (500 ≤ r.statusCode))
    | none => none

/-- Two's-complement wraparound of Go `int32` arithmetic:
2147483648 = 2^31, 4294967296 = 2^32. -/
def wrap32 (n : Int) : Int := (n + 2147483648) % 4294967296 - 2147483648

/-- Configuration fields of the `THC` struct (src/thc.go lines 39-53) read
by the modelled logic: `Name` (expvar key stem) and `MaxErrors` (an int32;
zero disables the breaker). The `Client` and `HealingTime` fields only
select the transport handle and the real-time cooldown delay; the model
keeps the transport external and the cooldown as an explicit event. -/
structure Config where
  name : String
  maxErrors : Int
deriving Repr, DecidableEq

/-- Mutable state of one THC instance plus the observable side effects of
its request path: the atomic `errorCounter`; whether the metrics registry
has been set up (`c.metrics.DNSLookup != nil`); how many samples have been
recorded on the `outofservice` rate counter; how many cooldown goroutines
have been spawned; and the expvar series published so far, in order. -/
structure State where
  errorCounter : Int
  metricsSetup : Bool
  outOfServiceCount : Nat
  cooldownsScheduled : Nat
  publishedNames : List String
deriving Repr, DecidableEq

/-- A freshly constructed THC value: Go zero values for every field. -/
def initState : State := ⟨0, false, 0, 0, []⟩

/-- The seven expvar series names published by `PublishExpvar`
(src/thc.go lines 156-175), in publication order. -/
def metricNames (n : String) : List String :=
  [n ++ "-dns-lookup", n ++ "-tcp-connection", n ++ "-tls-handshake",
   n ++ "-get-connection", n ++ "-write-request", n ++ "-get-response",
   n ++ "-outofservice"]

/-- `PublishExpvar` (src/thc.go lines 148-176): substitutes the default
name `"thc"` when `Name` is empty, then unconditionally creates fresh
counters (making the registry set up) and publishes the seven series.
The source has no guard against repeat calls. -/
def publishExpvar (cfg : Config) (s : State) : State :=
  let n := if cfg.name = "" then "thc" else cfg.name
  { s with metricsSetup := true,
           publishedNames := s.publishedNames ++ metricNames n }

/-- What one `Do` call returns to its caller (response and error values),
plus whether the underlying transport was contacted for this request. -/
structure DoResult where
  res : Option Response
  err : Option GoError
  contacted : Bool
deriving Repr, DecidableEq

/-- One sequential execution of `Do` (src/thc.go lines 57-97), given the
outcome the transport would produce for this request: the fail-fast check
(line 58), the lazy registry setup (lines 69-72; the `Client` and
`HealingTime` defaulting on lines 63-68 touches no modelled observable),
the transport call, and the breaker bookkeeping (lines 79-94). When the
increment makes the counter equal `MaxErrors`, one `outofservice` sample
is recorded and one cooldown goroutine is spawned (lines 82-89). -/
def Do (cfg : Config) (s : State) (t : TransportOutcome) : State × DoResult :=
  if 0 < cfg.maxErrors ∧ cfg.maxErrors ≤ s.errorCounter then
    (s, ⟨none, some ErrOutOfService, false⟩)
  else
    let s1 := if s.metricsSetup then s else publishExpvar cfg s
    let s2 :=
      if 0 < cfg.maxErrors then
        if isFailure t then
          let c := wrap32 (s1.errorCounter + 1)
          if c = cfg.maxErrors then
            { s1 with errorCounter := c,
                      outOfServiceCount := s1.outOfServiceCount + 1,
                      cooldownsScheduled := s1.cooldownsScheduled + 1 }
          else
            { s1 with errorCounter := c }
        else
          { s1 with errorCounter := 0 }
      else s1
    (s2, ⟨t.res, (t.errVal).map GoError.transport, true⟩)

/-- Body of the cooldown goroutine spawned when the breaker opens
(src/thc.go lines 85-88): after `HealingTime` elapses it unconditionally
stores 0 into `errorCounter`. -/
def cooldownReset (s : State) : State := { s with errorCounter := 0 }

/-- One event in the sequential history of a THC instance: a request with
the transport outcome it would receive, or the firing of a previously
scheduled cooldown reset. -/
inductive Event where
  | request : TransportOutcome → Event
  | cooldown : Event
deriving Repr, DecidableEq

/-- State transition of one event. -/
def step (cfg : Config) (s : State) : Event → State
  | .request t => (Do cfg s t).1
  | .cooldown => cooldownReset s

/-- Run a sequence of events from a state. -/
def run (cfg : Config) (s : State) (es : List Event) : State :=
  es.foldl (step cfg) s

/-- Helper: `wrap32` is the identity on the int32 range. -/
theorem wrap32_eq_self (n : Int) (h1 : -2147483648 ≤ n) (h2 : n < 2147483648) :
    wrap32 n = n := by
  unfold wrap32
  omega

/-- Helper: the fail-fast branch of `Do` (src/thc.go lines 58-60). -/
theorem Do_failFast (cfg : Config) (s : State) (t : TransportOutcome)
    (hme : 0 < cfg.maxErrors) (hc : cfg.maxErrors ≤ s.errorCounter) :
    Do cfg s t = (s, ⟨none, some ErrOutOfService, false⟩) := by
  unfold Do
  rw [if_pos ⟨hme, hc⟩]

/-- C1: while `MaxErrors > 0` and the failure count is at least `MaxErrors`,
`Do` fails fast: it returns a nil response and the sentinel
`ErrOutOfService`, does not contact the transport, and leaves the state
exactly as it was (no counter increment, no metric sample, no cooldown). -/
theorem failFast_no_side_effects (cfg : Config) (s : State) (t : TransportOutcome)
    (hme : 0 < cfg.maxErrors) (hc : cfg.maxErrors ≤ s.errorCounter) :
    Do cfg s t = (s, ⟨none, some ErrOutOfService, false⟩) :=
  Do_failFast cfg s t hme hc

/-- Witness for C1: with `MaxErrors = 1` and the counter at 1, a request
that would have succeeded is rejected with `ErrOutOfService`. -/
theorem failFast_no_side_effects_witness :
    Do ⟨"thc", 1⟩ ⟨1, true, 1, 1, []⟩ (.ok ⟨200⟩)
      = (⟨1, true, 1, 1, []⟩, ⟨none, some ErrOutOfService, false⟩) :=
  failFast_no_side_effects ⟨"thc", 1⟩ ⟨1, true, 1, 1, []⟩ (.ok ⟨200⟩)
    (by decide) (by decide)

/-- Helper: a dispatched successful outcome stores 0 into the counter
(the else branch at src/thc.go lines 90-93). -/
theorem Do_success_fields (cfg : Config) (s : State) (t : TransportOutcome)
    (hme : 0 < cfg.maxErrors) (hc : s.errorCounter < cfg.maxErrors)
    (hfail : isFailure t = false) :
    ((Do cfg s t).1).errorCounter = 0 := by
  unfold Do
  rw [if_neg (by omega)]
  simp [hfail, publishExpvar]
  split <;> rfl

/-- Helper: a dispatched failing outcome increments the counter by one and
bumps the `outofservice` sample count and the number of scheduled
cooldowns exactly when the new value reaches `MaxErrors`
(src/thc.go lines 79-89). -/
theorem Do_fail_fields (cfg : Config) (s : State) (t : TransportOutcome)
    (hme : 0 < cfg.maxErrors) (hb : cfg.maxErrors < 2147483648)
    (hfail : isFailure t = true)
    (hc0 : 0 ≤ s.errorCounter) (hlt : s.errorCounter < cfg.maxErrors) :
    ((Do cfg s t).1).errorCounter = s.errorCounter + 1
  ∧ ((Do cfg s t).1).outOfServiceCount
      = s.outOfServiceCount + (if s.errorCounter + 1 = cfg.maxErrors then 1 else 0)
  ∧ ((Do cfg s t).1).cooldownsScheduled
      = s.cooldownsScheduled + (if s.errorCounter + 1 = cfg.maxErrors then 1 else 0) := by
  unfold Do
  rw [if_neg (by omega)]
  have hw : wrap32 (s.errorCounter + 1) = s.errorCounter + 1 :=
    wrap32_eq_self _ (by omega) (by omega)
  by_cases hsetup : s.metricsSetup <;>
    simp [hsetup, publishExpvar, hfail, hw, hme] <;>
    split_ifs <;> simp_all

/-- C3: with `MaxErrors > 0`, any dispatched request whose transport call
completes with no error and a status below 500 resets the failure count to
0, whatever it was before the call (any value below `MaxErrors`, which is
what lets the request through the fail-fast check). -/
theorem success_resets_counter (cfg : Config) (s : State) (r : Response)
    (hme : 0 < cfg.maxErrors) (hc : s.errorCounter < cfg.maxErrors)
    (hr : r.statusCode < 500) :
    ((Do cfg s (.ok r)).1).errorCounter = 0 := by
  apply Do_success_fields cfg s (.ok r) hme hc
  simp [isFailure]
  omega

/-- Witness for C3: `MaxErrors = 3`, two accumulated failures, a 200
response brings the counter back to 0. -/
theorem success_resets_counter_witness :
    ((Do ⟨"thc", 3⟩ ⟨2, true, 0, 0, []⟩ (.ok ⟨200⟩)).1).errorCounter = 0 :=
  success_resets_counter ⟨"thc", 3⟩ ⟨2, true, 0, 0, []⟩ ⟨200⟩
    (by decide) (by decide) (by decide)

/-- C4: a cooldown firing unconditionally resets the failure count to 0,
after which the next request is dispatched to the transport (never
fail-fast), whatever happened before; and concretely, with `MaxErrors = 2`
against a server that always answers 500, requests 1 and 2 return the 500
response with no error, request 3 returns `ErrOutOfService` without
contacting the transport, and the first request after the scheduled
cooldown reset fires again returns the 500 response with no error. -/
theorem cooldown_restores_service :
    (∀ s : State, (cooldownReset s).errorCounter = 0)
  ∧ (∀ (cfg : Config) (s : State) (t : TransportOutcome),
      (Do cfg (cooldownReset s) t).2.contacted = true
      ∧ (Do cfg (cooldownReset s) t).2.err ≠ some ErrOutOfService)
  ∧ ((Do ⟨"test", 2⟩ initState (.ok ⟨500⟩)).2 = ⟨some ⟨500⟩, none, true⟩
    ∧ (Do ⟨"test", 2⟩ (Do ⟨"test", 2⟩ initState (.ok ⟨500⟩)).1 (.ok ⟨500⟩)).2
        = ⟨some ⟨500⟩, none, true⟩
    ∧ (Do ⟨"test", 2⟩ (Do ⟨"test", 2⟩ (Do ⟨"test", 2⟩ initState
        (.ok ⟨500⟩)).1 (.ok ⟨500⟩)).1 (.ok ⟨500⟩)).2
        = ⟨none, some ErrOutOfService, false⟩
    ∧ (Do ⟨"test", 2⟩ (cooldownReset (Do ⟨"test", 2⟩ (Do ⟨"test", 2⟩
        (Do ⟨"test", 2⟩ initState (.ok ⟨500⟩)).1 (.ok ⟨500⟩)).1
        (.ok ⟨500⟩)).1) (.ok ⟨500⟩)).2
        = ⟨some ⟨500⟩, none, true⟩) := by
  refine ⟨fun s => rfl, fun cfg s t => ?_, by decide⟩
  constructor
  · unfold Do
    rw [if_neg (by simp [cooldownReset])]
  · unfold Do
    rw [if_neg (by simp [cooldownReset])]
    cases t <;> simp [TransportOutcome.errVal, ErrOutOfService]

/-- C5: for every dispatched request (one that passes the fail-fast
check), the outcome is classified a failure exactly when the transport
returned a non-nil error or the response status is at least 500, and the
response and error values the transport produced are returned to the
caller unchanged — the breaker bookkeeping and metric recording touch
neither. -/
theorem dispatched_passthrough (cfg : Config) (s : State) (t : TransportOutcome)
    (h : ¬(0 < cfg.maxErrors ∧ cfg.maxErrors ≤ s.errorCounter)) :
    (Do cfg s t).2.res = t.res
  ∧ (Do cfg s t).2.err = (t.errVal).map GoError.transport
  ∧ (Do cfg s t).2.contacted = true
  ∧ (isFailure t = true ↔
      t.errVal.isSome = true ∨ ∃ r, t.res = some r ∧ 500 ≤ r.statusCode) := by
  refine ⟨?_, ?_, ?_, ?_⟩
  · unfold Do; rw [if_neg h]
  · unfold Do; rw [if_neg h]
  · unfold Do; rw [if_neg h]
  · cases t with
    | err e => simp [isFailure, TransportOutcome.errVal]
    | ok r => simp [isFailure, TransportOutcome.errVal, TransportOutcome.res]

/-- Witness for C5: `MaxErrors = 2`, counter at 1, a 503 response is
passed through unchanged and classified as a failure. -/
theorem dispatched_passthrough_witness :
    (Do ⟨"thc", 2⟩ ⟨1, true, 0, 0, []⟩ (.ok ⟨503⟩)).2.res
        = (TransportOutcome.ok ⟨503⟩).res
  ∧ (Do ⟨"thc", 2⟩ ⟨1, true, 0, 0, []⟩ (.ok ⟨503⟩)).2.err
        = ((TransportOutcome.ok ⟨503⟩).errVal).map GoError.transport
  ∧ (Do ⟨"thc", 2⟩ ⟨1, true, 0, 0, []⟩ (.ok ⟨503⟩)).2.contacted = true
  ∧ (isFailure (.ok ⟨503⟩) = true ↔
      (TransportOutcome.ok ⟨503⟩).errVal.isSome = true
      ∨ ∃ r, (TransportOutcome.ok ⟨503⟩).res = some r ∧ 500 ≤ r.statusCode) :=
  dispatched_passthrough ⟨"thc", 2⟩ ⟨1, true, 0, 0, []⟩ (.ok ⟨503⟩) (by decide)

/-- C9: with `MaxErrors = 0` the breaker is disabled: every request is
dispatched to the transport, `ErrOutOfService` is never returned, the
failure count is never mutated, the result does not depend on the failure
count, and over any event history from a fresh instance the count stays
0. -/
theorem breaker_disabled (cfg : Config) (hme : cfg.maxErrors = 0) :
    (∀ (s : State) (t : TransportOutcome),
      (Do cfg s t).2.contacted = true
      ∧ (Do cfg s t).2.err ≠ some ErrOutOfService
      ∧ ((Do cfg s t).1).errorCounter = s.errorCounter
      ∧ ∀ c : Int, (Do cfg { s with errorCounter := c } t).2 = (Do cfg s t).2)
  ∧ ∀ es : List Event, (run cfg initState es).errorCounter = 0 := by
  have hdo : ∀ (s : State) (t : TransportOutcome),
      Do cfg s t = (if s.metricsSetup then s else publishExpvar cfg s,
        ⟨t.res, (t.errVal).map GoError.transport, true⟩) := by
    intro s t
    simp [Do, hme]
  constructor
  · intro s t
    refine ⟨by rw [hdo], ?_, ?_, ?_⟩
    · rw [hdo]
      cases t <;> simp [TransportOutcome.errVal, ErrOutOfService]
    · rw [hdo]
      split <;> simp [publishExpvar]
    · intro c
      rw [hdo, hdo]
  · intro es
    have key : ∀ (es : List Event) (s : State), s.errorCounter = 0 →
        (run cfg s es).errorCounter = 0 := by
      intro es
      induction es with
      | nil => intro s h; exact h
      | cons e rest ih =>
        intro s h
        have hstep : (step cfg s e).errorCounter = 0 := by
          cases e with
          | request t =>
            simp only [step]
            rw [hdo]
            split <;> simp [publishExpvar, h]
          | cooldown => rfl
        simpa [run, List.foldl] using ih (step cfg s e) hstep
    exact key es initState rfl

/-- Witness for C9: with `MaxErrors = 0` and the counter artificially at
5, a transport error is still dispatched and passed through. -/
theorem breaker_disabled_witness :
    ((∀ (s : State) (t : TransportOutcome),
      (Do ⟨"thc", 0⟩ s t).2.contacted = true
      ∧ (Do ⟨"thc", 0⟩ s t).2.err ≠ some ErrOutOfService
      ∧ ((Do ⟨"thc", 0⟩ s t).1).errorCounter = s.errorCounter
      ∧ ∀ c : Int, (Do ⟨"thc", 0⟩ { s with errorCounter := c } t).2
          = (Do ⟨"thc", 0⟩ s t).2)
  ∧ ∀ es : List Event, (run ⟨"thc", 0⟩ initState es).errorCounter = 0) :=
  breaker_disabled ⟨"thc", 0⟩ (by decide)

/-- C10: classification is total over transport results: a non-nil error
alone forces the failure verdict without reading the status of the (absent)
response — `classifyRaw` is `some true` there even for a nil response — and
on every contract-conforming outcome it is defined and agrees with the
classification `Do` uses. -/
theorem classification_total :
    (∀ (e : Nat) (res : Option Response), classifyRaw (some e) res = some true)
  ∧ (∀ t : TransportOutcome, classifyRaw t.errVal t.res = some (isFailure t)) := by
  constructor
  · intro e res
    simp [classifyRaw]
  · intro t
    cases t <;> simp [classifyRaw, TransportOutcome.errVal, TransportOutcome.res, isFailure]

/-- Helper: a block of consecutive failing requests that stays within the
threshold advances the counter by its length, and bumps the `outofservice`
sample count and the scheduled cooldowns exactly once, at the step on
which the counter reaches `MaxErrors` (if it does). -/
theorem run_failures (cfg : Config) (ts : List TransportOutcome)
    (hme : 0 < cfg.maxErrors) (hb : cfg.maxErrors < 2147483648)
    (hfail : ∀ t ∈ ts, isFailure t = true) :
    ∀ s : State, 0 ≤ s.errorCounter →
      s.errorCounter + (ts.length : Int) ≤ cfg.maxErrors →
      ((run cfg s (ts.map Event.request)).errorCounter
          = s.errorCounter + (ts.length : Int)
      ∧ (run cfg s (ts.map Event.request)).outOfServiceCount
          = s.outOfServiceCount
            + (if s.errorCounter + (ts.length : Int) = cfg.maxErrors ∧ 0 < ts.length
               then 1 else 0)
      ∧ (run cfg s (ts.map Event.request)).cooldownsScheduled
          = s.cooldownsScheduled
            + (if s.errorCounter + (ts.length : Int) = cfg.maxErrors ∧ 0 < ts.length
               then 1 else 0)) := by
  induction ts with
  | nil =>
    intro s h0 hle
    simp [run]
  | cons t rest ih =>
    intro s h0 hle
    simp only [List.length_cons, Nat.cast_add, Nat.cast_one] at hle ⊢
    have hlt : s.errorCounter < cfg.maxErrors := by omega
    obtain ⟨hcnt, hoos, hcd⟩ :=
      Do_fail_fields cfg s t hme hb (hfail t (by simp)) h0 hlt
    have hrest : ∀ t2 ∈ rest, isFailure t2 = true := by
      intro t2 ht2
      exact hfail t2 (by simp [ht2])
    have hstep : run cfg s ((t :: rest).map Event.request)
        = run cfg ((Do cfg s t).1) (rest.map Event.request) := by
      simp [run, step]
    obtain ⟨icnt, ioos, icd⟩ := ih hrest ((Do cfg s t).1) (by omega) (by omega)
    rw [hstep]
    refine ⟨by rw [icnt, hcnt]; ring, ?_, ?_⟩
    · rw [ioos, hoos, hcnt]
      split_ifs <;> omega
    · rw [icd, hcd, hcnt]
      split_ifs <;> omega

/-- C2: from a zero failure count with `MaxErrors > 0`, a block of exactly
`MaxErrors` consecutive failing requests records exactly one sample on the
`outofservice` rate counter and schedules exactly one cooldown reset, and
the next request then fails fast: `ErrOutOfService`, nil response, the
transport not contacted, the state untouched. -/
theorem breaker_opens_after_threshold (cfg : Config) (ts : List TransportOutcome)
    (s0 : State) (t2 : TransportOutcome)
    (hme : 0 < cfg.maxErrors) (hb : cfg.maxErrors < 2147483648)
    (h0 : s0.errorCounter = 0)
    (hlen : (ts.length : Int) = cfg.maxErrors)
    (hfail : ∀ t ∈ ts, isFailure t = true) :
    (run cfg s0 (ts.map Event.request)).outOfServiceCount
        = s0.outOfServiceCount + 1
  ∧ (run cfg s0 (ts.map Event.request)).cooldownsScheduled
        = s0.cooldownsScheduled + 1
  ∧ Do cfg (run cfg s0 (ts.map Event.request)) t2
        = (run cfg s0 (ts.map Event.request), ⟨none, some ErrOutOfService, false⟩) := by
  obtain ⟨hcnt, hoos, hcd⟩ :=
    run_failures cfg ts hme hb hfail s0 (by omega) (by omega)
  have hcond : (s0.errorCounter + (ts.length : Int) = cfg.maxErrors ∧ 0 < ts.length) := by
    constructor
    · omega
    · by_contra hnil
      have : (ts.length : Int) = 0 := by omega
      omega
  refine ⟨by rw [hoos, if_pos hcond], by rw [hcd, if_pos hcond], ?_⟩
  unfold Do
  rw [if_pos ⟨hme, by rw [hcnt]; omega⟩]

/-- Witness for C2: `MaxErrors = 2`, one transport error then one 500
response open the breaker; one `outofservice` sample, one cooldown, and
the third request is rejected. -/
theorem breaker_opens_after_threshold_witness :
    (run ⟨"thc", 2⟩ initState
        ([TransportOutcome.err 0, TransportOutcome.ok ⟨500⟩].map Event.request)).outOfServiceCount
        = initState.outOfServiceCount + 1
  ∧ (run ⟨"thc", 2⟩ initState
        ([TransportOutcome.err 0, TransportOutcome.ok ⟨500⟩].map Event.request)).cooldownsScheduled
        = initState.cooldownsScheduled + 1
  ∧ Do ⟨"thc", 2⟩ (run ⟨"thc", 2⟩ initState
        ([TransportOutcome.err 0, TransportOutcome.ok ⟨500⟩].map Event.request)) (.ok ⟨200⟩)
        = (run ⟨"thc", 2⟩ initState
            ([TransportOutcome.err 0, TransportOutcome.ok ⟨500⟩].map Event.request),
           ⟨none, some ErrOutOfService, false⟩) :=
  breaker_opens_after_threshold ⟨"thc", 2⟩
    [TransportOutcome.err 0, TransportOutcome.ok ⟨500⟩] initState (.ok ⟨200⟩)
    (by decide) (by decide) (by decide) (by decide) (by decide)

/-- Helper: one event keeps the counter within `[0, MaxErrors]`. -/
theorem step_preserves_bounds (cfg : Config) (s : State) (e : Event)
    (hme : 0 < cfg.maxErrors) (hb : cfg.maxErrors < 2147483648)
    (h0 : 0 ≤ s.errorCounter) (h1 : s.errorCounter ≤ cfg.maxErrors) :
    0 ≤ (step cfg s e).errorCounter ∧ (step cfg s e).errorCounter ≤ cfg.maxErrors := by
  cases e with
  | cooldown =>
    simp [step, cooldownReset]
    omega
  | request t =>
    simp only [step]
    by_cases hff : cfg.maxErrors ≤ s.errorCounter
    · rw [Do_failFast cfg s t hme hff]
      exact ⟨h0, h1⟩
    · by_cases hfail : isFailure t = true
      · obtain ⟨hcnt, -, -⟩ :=
          Do_fail_fields cfg s t hme hb hfail h0 (by omega)
        rw [hcnt]
        omega
      · rw [Do_success_fields cfg s t hme (by omega)
          (by simpa using hfail)]
        omega

/-- C6: with `MaxErrors > 0` (an int32, so below 2^31), over every event
history from a fresh instance the failure count stays in `[0, MaxErrors]`;
moreover a dispatched failure adds exactly 1 while the count is below
`MaxErrors`, a dispatched success stores 0, and a cooldown firing stores
0. -/
theorem errorCounter_invariant (cfg : Config) (es : List Event)
    (hme : 0 < cfg.maxErrors) (hb : cfg.maxErrors < 2147483648) :
    (0 ≤ (run cfg initState es).errorCounter
      ∧ (run cfg initState es).errorCounter ≤ cfg.maxErrors)
  ∧ (∀ (s : State) (t : TransportOutcome), 0 ≤ s.errorCounter →
      s.errorCounter < cfg.maxErrors → isFailure t = true →
      ((Do cfg s t).1).errorCounter = s.errorCounter + 1)
  ∧ (∀ (s : State) (t : TransportOutcome), s.errorCounter < cfg.maxErrors →
      isFailure t = false → ((Do cfg s t).1).errorCounter = 0)
  ∧ (∀ s : State, (cooldownReset s).errorCounter = 0) := by
  refine ⟨?_, ?_, ?_, fun s => rfl⟩
  · have key : ∀ (es : List Event) (s : State),
        0 ≤ s.errorCounter → s.errorCounter ≤ cfg.maxErrors →
        0 ≤ (run cfg s es).errorCounter
        ∧ (run cfg s es).errorCounter ≤ cfg.maxErrors := by
      intro es
      induction es with
      | nil =>
        intro s g0 g1
        exact ⟨g0, g1⟩
      | cons e rest ih =>
        intro s g0 g1
        obtain ⟨k0, k1⟩ := step_preserves_bounds cfg s e hme hb g0 g1
        simpa [run] using ih (step cfg s e) k0 k1
    exact key es initState (by simp [initState]) (by simp [initState]; omega)
  · intro s t ha hb2 hc
    exact (Do_fail_fields cfg s t hme hb hc ha hb2).1
  · intro s t ha hb2
    exact Do_success_fields cfg s t hme ha hb2

/-- Witness for C6: `MaxErrors = 2` over a history of failure, success,
two failures (opening the breaker), a rejected request, and a cooldown. -/
theorem errorCounter_invariant_witness :
    ((0 ≤ (run ⟨"thc", 2⟩ initState
        [Event.request (.err 0), Event.request (.ok ⟨200⟩),
         Event.request (.ok ⟨500⟩), Event.request (.err 1),
         Event.request (.err 2), Event.cooldown]).errorCounter
      ∧ (run ⟨"thc", 2⟩ initState
        [Event.request (.err 0), Event.request (.ok ⟨200⟩),
         Event.request (.ok ⟨500⟩), Event.request (.err 1),
         Event.request (.err 2), Event.cooldown]).errorCounter ≤ (2 : Int))
  ∧ (∀ (s : State) (t : TransportOutcome), 0 ≤ s.errorCounter →
      s.errorCounter < 2 → isFailure t = true →
      ((Do ⟨"thc", 2⟩ s t).1).errorCounter = s.errorCounter + 1)
  ∧ (∀ (s : State) (t : TransportOutcome), s.errorCounter < 2 →
      isFailure t = false → ((Do ⟨"thc", 2⟩ s t).1).errorCounter = 0)
  ∧ (∀ s : State, (cooldownReset s).errorCounter = 0)) :=
  errorCounter_invariant ⟨"thc", 2⟩
    [Event.request (.err 0), Event.request (.ok ⟨200⟩),
     Event.request (.ok ⟨500⟩), Event.request (.err 1),
     Event.request (.err 2), Event.cooldown]
    (by decide) (by decide)

/-- C7 counterexample: `PublishExpvar` has no already-set-up guard, so
calling it twice is not observably equal to calling it once — the seven
series are published a second time (fourteen published names instead of
seven, and fresh counters re-created). -/
theorem publishExpvar_not_idempotent :
    publishExpvar ⟨"thc", 0⟩ (publishExpvar ⟨"thc", 0⟩ initState)
      ≠ publishExpvar ⟨"thc", 0⟩ initState := by
  intro h
  have h14 : (publishExpvar ⟨"thc", 0⟩
      (publishExpvar ⟨"thc", 0⟩ initState)).publishedNames.length = 14 := by
    simp [publishExpvar, initState, metricNames]
  have h7 : (publishExpvar ⟨"thc", 0⟩ initState).publishedNames.length = 7 := by
    simp [publishExpvar, initState, metricNames]
  rw [h] at h14
  rw [h7] at h14
  exact absurd h14 (by decide)

/-- C7 amended: only the automatic invocation from the request path is
guarded. A dispatched `Do` on an already-set-up instance publishes nothing
new and leaves the registry set up, and a dispatched `Do` on a
not-yet-set-up instance runs `PublishExpvar` exactly once, publishing the
seven series; `PublishExpvar` called directly carries no guard of its
own. -/
theorem setup_guarded_on_request_path (cfg : Config) (s : State)
    (t : TransportOutcome) (hsetup : s.metricsSetup = true) :
    ((Do cfg s t).1).publishedNames = s.publishedNames
  ∧ ((Do cfg s t).1).metricsSetup = true
  ∧ (∀ s2 : State, s2.metricsSetup = false →
      ¬(0 < cfg.maxErrors ∧ cfg.maxErrors ≤ s2.errorCounter) →
      ((Do cfg s2 t).1).metricsSetup = true
      ∧ ((Do cfg s2 t).1).publishedNames
          = s2.publishedNames
            ++ metricNames (if cfg.name = "" then "thc" else cfg.name)) := by
  have main : ∀ s3 : State,
      ¬(0 < cfg.maxErrors ∧ cfg.maxErrors ≤ s3.errorCounter) →
      ((Do cfg s3 t).1).metricsSetup = true
      ∧ ((Do cfg s3 t).1).publishedNames
          = (if s3.metricsSetup = true then s3.publishedNames
             else s3.publishedNames
               ++ metricNames (if cfg.name = "" then "thc" else cfg.name)) := by
    intro s3 hnff
    unfold Do
    rw [if_neg hnff]
    by_cases hs : s3.metricsSetup = true <;>
      simp only [hs, if_true, if_false, Bool.false_eq_true, publishExpvar] <;>
      constructor <;>
      split_ifs <;>
      simp [hs]
  by_cases hff : 0 < cfg.maxErrors ∧ cfg.maxErrors ≤ s.errorCounter
  · rw [Do_failFast cfg s t hff.1 hff.2]
    refine ⟨rfl, hsetup, ?_⟩
    intro s2 hs2 hnff
    refine ⟨(main s2 hnff).1, ?_⟩
    rw [(main s2 hnff).2, if_neg (by simp [hs2])]
  · refine ⟨?_, (main s hff).1, ?_⟩
    · rw [(main s hff).2, if_pos hsetup]
    · intro s2 hs2 hnff
      refine ⟨(main s2 hnff).1, ?_⟩
      rw [(main s2 hnff).2, if_neg (by simp [hs2])]

/-- Witness for C7's amended statement: a second request on a set-up
instance with `MaxErrors = 0` publishes nothing new, and a first dispatch
on a fresh instance publishes exactly the seven default-named series. -/
theorem setup_guarded_on_request_path_witness :
    ((Do ⟨"", 0⟩ ⟨0, true, 0, 0, metricNames "thc"⟩ (.ok ⟨200⟩)).1).publishedNames
        = (⟨0, true, 0, 0, metricNames "thc"⟩ : State).publishedNames
  ∧ ((Do ⟨"", 0⟩ ⟨0, true, 0, 0, metricNames "thc"⟩ (.ok ⟨200⟩)).1).metricsSetup = true
  ∧ (∀ s2 : State, s2.metricsSetup = false →
      ¬(0 < (0 : Int) ∧ (0 : Int) ≤ s2.errorCounter) →
      ((Do ⟨"", 0⟩ s2 (.ok ⟨200⟩)).1).metricsSetup = true
      ∧ ((Do ⟨"", 0⟩ s2 (.ok ⟨200⟩)).1).publishedNames
          = s2.publishedNames
            ++ metricNames (if ("" : String) = "" then "thc" else "")) :=
  setup_guarded_on_request_path ⟨"", 0⟩ ⟨0, true, 0, 0, metricNames "thc"⟩
    (.ok ⟨200⟩) (by decide)

/-- One callback kind of the `httptrace.ClientTrace` installed by
`withTracing` (src/metrics.go lines 39-68). -/
inductive TraceEvent where
  | getConn : TraceEvent
  | dnsStart : TraceEvent
  | dnsDone : TraceEvent
  | connectStart : TraceEvent
  | connectDone : TraceEvent
  | tlsHandshakeStart : TraceEvent
  | tlsHandshakeDone : TraceEvent
  | gotConn : TraceEvent
  | wroteRequest : TraceEvent
  | gotFirstResponseByte : TraceEvent
deriving Repr, DecidableEq

/-- The per-request timestamp variables captured by the closures in
`withTracing` (src/metrics.go line 37): `t0, dnsStart, tcpStart, tlsStart`;
Go zero values before the corresponding start event fires. Times are
nanoseconds as integers. -/
structure TraceState where
  t0 : Int
  dnsStart : Int
  tcpStart : Int
  tlsStart : Int
deriving Repr, DecidableEq

/-- The samples `Incr`-ed into the six latency counters, in order of
recording. -/
structure Samples where
  dnsLookup : List Int
  tcpConnection : List Int
  tlsHandshake : List Int
  getConnection : List Int
  writeRequest : List Int
  getResponse : List Int
deriving Repr, DecidableEq

/-- One callback firing at wall-clock time `tm` (the `time.Now()` the
closure reads), mirroring src/metrics.go lines 40-67: start events store
`tm` into their timestamp variable; `DNSDone`/`ConnectDone`/
`TLSHandshakeDone` record `tm` minus their own phase start; `GotConn`,
`WroteRequest` and `GotFirstResponseByte` all record `tm - t0`, the shared
anchor set by `GetConn`. -/
def traceStep (tm : Int) (e : TraceEvent) :
    TraceState × Samples → TraceState × Samples
  | (ts, ms) =>
    match e with
    | .getConn => ({ ts with t0 := tm }, ms)
    | .dnsStart => ({ ts with dnsStart := tm }, ms)
    | .dnsDone =>
        (ts, { ms with dnsLookup := ms.dnsLookup ++ [tm - ts.dnsStart] })
    | .connectStart => ({ ts with tcpStart := tm }, ms)
    | .connectDone =>
        (ts, { ms with tcpConnection := ms.tcpConnection ++ [tm - ts.tcpStart] })
    | .tlsHandshakeStart => ({ ts with tlsStart := tm }, ms)
    | .tlsHandshakeDone =>
        (ts, { ms with tlsHandshake := ms.tlsHandshake ++ [tm - ts.tlsStart] })
    | .gotConn =>
        (ts, { ms with getConnection := ms.getConnection ++ [tm - ts.t0] })
    | .wroteRequest =>
        (ts, { ms with writeRequest := ms.writeRequest ++ [tm - ts.t0] })
    | .gotFirstResponseByte =>
        (ts, { ms with getResponse := ms.getResponse ++ [tm - ts.t0] })

/-- C8: when the three cumulative milestones of one request fire in
chronological order (connection obtained at `tc`, request written at `tw`,
first response byte at `tr`), the recorded samples are each measured from
the same anchor `t0`, and therefore form the monotone waterfall
`GetConnection ≤ WriteRequest ≤ GetResponse`. -/
theorem cumulative_waterfall (ts : TraceState) (ms : Samples) (tc tw tr : Int)
    (h1 : tc ≤ tw) (h2 : tw ≤ tr) :
    ((traceStep tr .gotFirstResponseByte (traceStep tw .wroteRequest
        (traceStep tc .gotConn (ts, ms)))).2.getConnection
        = ms.getConnection ++ [tc - ts.t0]
    ∧ (traceStep tr .gotFirstResponseByte (traceStep tw .wroteRequest
        (traceStep tc .gotConn (ts, ms)))).2.writeRequest
        = ms.writeRequest ++ [tw - ts.t0]
    ∧ (traceStep tr .gotFirstResponseByte (traceStep tw .wroteRequest
        (traceStep tc .gotConn (ts, ms)))).2.getResponse
        = ms.getResponse ++ [tr - ts.t0])
  ∧ tc - ts.t0 ≤ tw - ts.t0 ∧ tw - ts.t0 ≤ tr - ts.t0 := by
  refine ⟨⟨rfl, rfl, rfl⟩, by omega, by omega⟩

/-- Witness for C8: anchor at 10, milestones at 30, 50, 90. -/
theorem cumulative_waterfall_witness :
    ((traceStep 90 .gotFirstResponseByte (traceStep 50 .wroteRequest
        (traceStep 30 .gotConn (⟨10, 0, 0, 0⟩, ⟨[], [], [], [], [], []⟩)))).2.getConnection
        = ([] : List Int) ++ [30 - 10]
    ∧ (traceStep 90 .gotFirstResponseByte (traceStep 50 .wroteRequest
        (traceStep 30 .gotConn (⟨10, 0, 0, 0⟩, ⟨[], [], [], [], [], []⟩)))).2.writeRequest
        = ([] : List Int) ++ [50 - 10]
    ∧ (traceStep 90 .gotFirstResponseByte (traceStep 50 .wroteRequest
        (traceStep 30 .gotConn (⟨10, 0, 0, 0⟩, ⟨[], [], [], [], [], []⟩)))).2.getResponse
        = ([] : List Int) ++ [90 - 10])
  ∧ (30 : Int) - 10 ≤ 50 - 10 ∧ (50 : Int) - 10 ≤ 90 - 10 :=
  cumulative_waterfall ⟨10, 0, 0, 0⟩ ⟨[], [], [], [], [], []⟩ 30 50 90
    (by decide) (by decide)

end THC
